import Mathlib

/-
Verification of the quiz response-parsing and grading pipeline of the
study-RAG repository (src/study-RAG/utils/st_utils.py), against its
natural-language specification.

The Python values flowing through the pipeline (JSON-decoded payloads,
user answers, question records) are embedded as the inductive type
PyValue.  Python dictionaries are association lists with string keys
(all dictionaries in this pipeline come from JSON objects, whose keys
are strings).  Operations that can raise a Python exception are
embedded in Except PyExc.
-/

set_option autoImplicit false

namespace StudyRAG

/-- A Python value as it occurs in the quiz pipeline: None, booleans,
integers, strings, lists and string-keyed dictionaries. -/
inductive PyValue where
  | none
  | bool (b : Bool)
  | int (n : Int)
  | str (s : String)
  | list (xs : List PyValue)
  | dict (kvs : List (String × PyValue))

/-- Python exceptions raised by the embedded operations. -/
inductive PyExc where
  | jsonDecodeError (msg : String)
  | typeError (msg : String)
  | keyError (key : String)
  | indexError
  | attributeError (attr : String)
deriving DecidableEq

/-- Diagnostics reported to the presentation layer via st.error. -/
inductive Diag where
  | stError (msg : String)
deriving DecidableEq

/-- Dictionary lookup, d.get(k): the value at the first (hence, for
dictionaries built by dictInsert, the only) occurrence of the key. -/
def dictGet : List (String × PyValue) → String → Option PyValue
  | [], _ => Option.none
  | (k1, v1) :: rest, k => if k1 == k then some v1 else dictGet rest k

/-- Dictionary insertion, d[k] = v: replaces the value at an existing
key in place, otherwise appends, matching Python dict semantics
(insertion order kept, later assignment to the same key overwrites). -/
def dictInsert : List (String × PyValue) → String → PyValue → List (String × PyValue)
  | [], k, v => [(k, v)]
  | (k1, v1) :: rest, k, v =>
    if k1 == k then (k1, v) :: rest else (k1, v1) :: dictInsert rest k v

/-- The name of the type of a Python value, as used in error messages. -/
def PyValue.typeName : PyValue → String
  | .none => "NoneType"
  | .bool _ => "bool"
  | .int _ => "int"
  | .str _ => "str"
  | .list _ => "list"
  | .dict _ => "dict"

mutual

/-- Python equality (the == operator) on embedded values.  True == 1
holds, as in Python; None is equal only to None.  Dictionaries built
by the pipeline have unique keys in a canonical order, so entrywise
comparison agrees with the unordered-map comparison of Python on them. -/
def pyEq : PyValue → PyValue → Bool
  | .none, .none => true
  | .bool a, .bool b => a == b
  | .bool a, .int n => (if a then (1 : Int) else 0) == n
  | .int n, .bool b => n == (if b then (1 : Int) else 0)
  | .int a, .int b => a == b
  | .str a, .str b => a == b
  | .list as, .list bs => pyEqList as bs
  | .dict as, .dict bs => pyEqKVs as bs
  | _, _ => false

/-- Elementwise Python equality of lists. -/
def pyEqList : List PyValue → List PyValue → Bool
  | [], [] => true
  | a :: as, b :: bs => pyEq a b && pyEqList as bs
  | _, _ => false

/-- Entrywise Python equality of dictionary entry lists. -/
def pyEqKVs : List (String × PyValue) → List (String × PyValue) → Bool
  | [], [] => true
  | (k1, v1) :: as, (k2, v2) :: bs => k1 == k2 && pyEq v1 v2 && pyEqKVs as bs
  | _, _ => false

end

/-! Section: JSON parsing (embedding of json.loads)

json.loads is embedded as a recursive-descent parser over the characters of the text, producing a PyValue exactly as the Python decoder does:
objects become dictionaries (later duplicate keys overwrite earlier
ones), arrays become lists, strings/booleans/null become the
corresponding values.  Numbers are restricted to integers, which is
all the quiz schema uses, and string escapes to the single-character
escapes; a text outside this fragment is reported as a parse error. -/

/-- JSON whitespace. -/
def isJsonWs (c : Char) : Bool :=
  c == ' ' || c == '\t' || c == '\n' || c == '\r'

/-- Drop leading JSON whitespace. -/
def skipWs : List Char → List Char
  | [] => []
  | c :: rest => if isJsonWs c then skipWs rest else c :: rest

/-- Decode a single-character JSON string escape. -/
def decodeEscape (c : Char) : Option Char :=
  if c == '\x22' then some '\x22'
  else if c == '\x5c' then some '\x5c'
  else if c == '/' then some '/'
  else if c == 'n' then some '\n'
  else if c == 't' then some '\t'
  else if c == 'r' then some '\r'
  else if c == 'b' then some (Char.ofNat 8)
  else if c == 'f' then some (Char.ofNat 12)
  else Option.none

/-- Parse the body of a JSON string literal (after the opening quote),
returning its characters and the remainder after the closing quote. -/
def parseStringBody : List Char → Except String (List Char × List Char)
  | [] => .error "Unterminated string"
  | c :: rest =>
    if c == '\x22' then .ok ([], rest)
    else if c == '\x5c' then
      match rest with
      | [] => .error "Unterminated string"
      | e :: rest2 =>
        match decodeEscape e with
        | Option.none => .error "Invalid escape"
        | some d =>
          match parseStringBody rest2 with
          | .ok (content, rem) => .ok (d :: content, rem)
          | .error m => .error m
    else
      match parseStringBody rest with
      | .ok (content, rem) => .ok (c :: content, rem)
      | .error m => .error m

/-- Match a keyword such as true/false/null against the input,
returning the remainder on success. -/
def stripKeyword : List Char → List Char → Option (List Char)
  | [], cs => some cs
  | _ :: _, [] => Option.none
  | k :: ks, c :: cs => if c == k then stripKeyword ks cs else Option.none

/-- Parse a JSON integer token (optional minus sign, then digits). -/
def parseIntToken (cs : List Char) : Except String (PyValue × List Char) :=
  let neg := cs.head? == some '-'
  let cs1 := if neg then cs.drop 1 else cs
  let digits := cs1.takeWhile Char.isDigit
  let rest := cs1.dropWhile Char.isDigit
  if digits.isEmpty then .error "Expecting value"
  else
    let n : Nat := digits.foldl (fun acc c => acc * 10 + (c.toNat - 48)) 0
    .ok (.int (if neg then -(n : Int) else (n : Int)), rest)

mutual

/-- Parse one JSON value, fuel-bounded (the fuel chosen at top level
always suffices for the input length). -/
def parseValue : Nat → List Char → Except String (PyValue × List Char)
  | 0, _ => .error "Too deeply nested"
  | fuel + 1, cs =>
    match skipWs cs with
    | [] => .error "Expecting value"
    | c :: rest =>
      if c == '\x7b' then
        match skipWs rest with
        | c2 :: rest2 =>
          if c2 == '\x7d' then .ok (.dict [], rest2)
          else parseObjectEntries fuel (c2 :: rest2) []
        | [] => .error "Expecting property name"
      else if c == '[' then
        match skipWs rest with
        | c2 :: rest2 =>
          if c2 == ']' then .ok (.list [], rest2)
          else parseArrayEntries fuel (c2 :: rest2) []
        | [] => .error "Expecting value"
      else if c == '\x22' then
        match parseStringBody rest with
        | .ok (content, rem) => .ok (.str (String.mk content), rem)
        | .error m => .error m
      else
        match stripKeyword "true".data (c :: rest) with
        | some rem => .ok (.bool true, rem)
        | Option.none =>
          match stripKeyword "false".data (c :: rest) with
          | some rem => .ok (.bool false, rem)
          | Option.none =>
            match stripKeyword "null".data (c :: rest) with
            | some rem => .ok (.none, rem)
            | Option.none => parseIntToken (c :: rest)

/-- Parse the entries of a non-empty JSON object (cursor at the first
key), accumulating them with dictInsert so that a later duplicate key
overwrites an earlier one, as in Python. -/
def parseObjectEntries : Nat → List Char → List (String × PyValue) →
    Except String (PyValue × List Char)
  | 0, _, _ => .error "Too deeply nested"
  | fuel + 1, cs, acc =>
    match skipWs cs with
    | c :: rest =>
      if c == '\x22' then
        match parseStringBody rest with
        | .error m => .error m
        | .ok (key, rem) =>
          match skipWs rem with
          | c2 :: rem2 =>
            if c2 == ':' then
              match parseValue fuel rem2 with
              | .error m => .error m
              | .ok (v, rem3) =>
                let acc2 := dictInsert acc (String.mk key) v
                match skipWs rem3 with
                | c3 :: rem4 =>
                  if c3 == ',' then parseObjectEntries fuel rem4 acc2
                  else if c3 == '\x7d' then .ok (.dict acc2, rem4)
                  else .error "Expecting comma"
                | [] => .error "Expecting comma"
            else .error "Expecting colon"
          | [] => .error "Expecting colon"
      else .error "Expecting property name"
    | [] => .error "Expecting property name"

/-- Parse the entries of a non-empty JSON array (cursor at the first
element). -/
def parseArrayEntries : Nat → List Char → List PyValue →
    Except String (PyValue × List Char)
  | 0, _, _ => .error "Too deeply nested"
  | fuel + 1, cs, acc =>
    match parseValue fuel cs with
    | .error m => .error m
    | .ok (v, rem) =>
      match skipWs rem with
      | c :: rem2 =>
        if c == ',' then parseArrayEntries fuel rem2 (acc ++ [v])
        else if c == ']' then .ok (.list (acc ++ [v]), rem2)
        else .error "Expecting comma"
      | [] => .error "Expecting comma"

end

/-- Embedding of json.loads: parse the whole text as one JSON value,
requiring only whitespace after it.  An error value is the message of
the json.JSONDecodeError Python would raise. -/
def json_loads (s : String) : Except String PyValue :=
  match parseValue (2 * s.length + 8) s.data with
  | .error m => .error m
  | .ok (v, rem) =>
    match skipWs rem with
    | [] => .ok v
    | _ => .error "Extra data"

/-! Section: Response Normalizer (embedding of parse_quiz_response)

st_utils.py lines 75-103.  The Python function dispatches on the
runtime type of raw_response inside a try block: a list is returned
unchanged, a string is passed to json.loads (whose JSONDecodeError the
except clause turns into one st.error diagnostic and an empty list), a
dict yields raw_response.get with key "questions" and default [], and any other type is
reported via st.error with an empty list returned.  The result pairs
the returned value with the list of diagnostics issued. -/

/-- The message attached to an exception, as interpolated by the
f-strings in the except clauses. -/
def pyExcMessage : PyExc → String
  | .jsonDecodeError m => m
  | .typeError m => m
  | .keyError k => k
  | .indexError => "list index out of range"
  | .attributeError a => a

/-- The try block of parse_quiz_response: the type dispatch, with
json.loads raising JSONDecodeError on malformed text. -/
def parse_quiz_response_try (raw : PyValue) : Except PyExc (PyValue × List Diag) :=
  match raw with
  | .list xs => .ok (.list xs, [])
  | .str s =>
    match json_loads s with
    | .ok v => .ok (v, [])
    | .error m => .error (.jsonDecodeError m)
  | .dict kvs => .ok ((dictGet kvs "questions").getD (.list []), [])
  | other => .ok (.list [], [.stError ("Unexpected response type: " ++ other.typeName)])

/-- parse_quiz_response: the try block wrapped in its exception
handlers.  except json.JSONDecodeError reports the error and returns
[]; except Exception likewise.  The outer Except is the call boundary:
a .error result would mean an exception escaped the function. -/
def parse_quiz_response (raw : PyValue) : Except PyExc (PyValue × List Diag) :=
  match parse_quiz_response_try raw with
  | .ok r => .ok r
  | .error (.jsonDecodeError m) => .ok (.list [], [.stError ("JSONDecodeError: " ++ m)])
  | .error e => .ok (.list [], [.stError ("Error: " ++ pyExcMessage e)])

/-! Section: Grading Engine (embedding of display_interactive_quiz_with_form)

st_utils.py lines 36-59, the block guarded by the submit button.  The
quiz data is a list of question dictionaries; selected_answers maps a
question index to the radio selection, which is None when no option
was chosen (st.radio with index=None), so selected_answers.get(idx)
is None exactly when no answer is recorded at idx. -/

/-- Python list indexing xs[i]: negative indices count from the end,
out-of-range raises IndexError. -/
def pyListIndex (xs : List PyValue) (i : Int) : Except PyExc PyValue :=
  let j := if i < 0 then i + xs.length else i
  if h : 0 ≤ j ∧ j < xs.length then
    .ok (xs.get ⟨j.toNat, by omega⟩)
  else .error .indexError

/-- Python string indexing s[i], yielding a one-character string. -/
def pyStrIndex (s : String) (i : Int) : Except PyExc PyValue :=
  let j := if i < 0 then i + s.length else i
  if 0 ≤ j ∧ j < s.length then
    .ok (.str (String.mk (s.data.drop j.toNat |>.take 1)))
  else .error .indexError

/-- Python subscription obj[key]: dictionary lookup by string key
(raising KeyError on a missing key), list and string indexing by
integer (True/False index as 1/0); any other combination raises a
TypeError. -/
def pyGetItem (obj : PyValue) (key : PyValue) : Except PyExc PyValue :=
  match obj, key with
  | .dict kvs, .str k =>
    match dictGet kvs k with
    | some v => .ok v
    | Option.none => .error (.keyError k)
  | .dict _, other => .error (.keyError other.typeName)
  | .list xs, .int i => pyListIndex xs i
  | .list xs, .bool b => pyListIndex xs (if b then 1 else 0)
  | .str s, .int i => pyStrIndex s i
  | .str s, .bool b => pyStrIndex s (if b then 1 else 0)
  | _, _ => .error (.typeError "object is not subscriptable")

/-- The recorded answers of the user: selected_answers.get(idx) is None
when no entry exists at idx. -/
def answersGet (answers : List (Nat × PyValue)) (idx : Nat) : PyValue :=
  match answers.find? (fun p => p.1 == idx) with
  | some p => p.2
  | Option.none => .none

/-- The loop body for one question (lines 42-47): look up the answer of the user, resolve correct_answer and options[correct_answer], and
compare by value; returns whether the question was counted correct. -/
def gradeQuestion (answers : List (Nat × PyValue)) (idx : Nat)
    (question_data : PyValue) : Except PyExc Bool :=
  let user_answer := answersGet answers idx
  match pyGetItem question_data (.str "correct_answer") with
  | .error e => .error e
  | .ok correct_index =>
    match pyGetItem question_data (.str "options") with
    | .error e => .error e
    | .ok options =>
      match pyGetItem options correct_index with
      | .error e => .error e
      | .ok correct_answer => .ok (pyEq user_answer correct_answer)

/-- The evaluation loop (lines 41-50), accumulating correct_count. -/
def gradeLoop (answers : List (Nat × PyValue)) :
    Nat → List PyValue → Nat → Except PyExc Nat
  | _, [], acc => .ok acc
  | idx, q :: rest, acc =>
    match gradeQuestion answers idx q with
    | .error e => .error e
    | .ok b => gradeLoop answers (idx + 1) rest (acc + (if b then 1 else 0))

/-- The final score displayed at line 59. -/
structure Score where
  correct_count : Nat
  total : Nat
deriving DecidableEq

/-- The submitted branch of display_interactive_quiz_with_form as a
function of its data: correct_count from the evaluation loop, total
from len(quiz_data). -/
def grade (quiz_data : List PyValue) (selected_answers : List (Nat × PyValue)) :
    Except PyExc Score :=
  match gradeLoop selected_answers 0 quiz_data 0 with
  | .error e => .error e
  | .ok c => .ok ⟨c, quiz_data.length⟩

/-! Section: Document Summarizer rendering (embedding of display_enhanced_summary)

st_utils.py lines 106-206.  Stripped of the HTML/CSS strings, the
function reads, in source order: the summary key (line 171),
the iteration over the key_skills key (line 181),
summary_data.get with key "difficulty" and default "Medium", lowercased, with the three
highlight comparisons (lines 188-195), and
the estimated_time key (line 204).  Direct subscription
raises KeyError on a missing key; only difficulty is defaulted. -/

/-- Python iteration (for x in obj): lists yield their elements,
strings their characters as one-character strings, dictionaries their
keys; other values raise TypeError. -/
def pyIterate : PyValue → Except PyExc (List PyValue)
  | .list xs => .ok xs
  | .str s => .ok (s.data.map fun c => .str (String.mk [c]))
  | .dict kvs => .ok (kvs.map fun p => .str p.1)
  | v => .error (.typeError (v.typeName ++ " object is not iterable"))

/-- str.lower(): lowercase every character of the string. -/
def pyStrLower (s : String) : String :=
  String.mk (s.data.map Char.toLower)

/-- value.lower(): defined on strings, AttributeError otherwise. -/
def pyLower : PyValue → Except PyExc String
  | .str s => .ok (pyStrLower s)
  | v => .error (.attributeError (v.typeName ++ " object has no attribute lower"))

/-- The data rendered by display_enhanced_summary: the summary value,
the iterated key skills, the lowercased difficulty with the three
highlight flags of lines 193-195, and the estimated time. -/
structure SummaryView where
  summary : PyValue
  key_skills : List PyValue
  difficulty : String
  hlEasy : Bool
  hlMedium : Bool
  hlHard : Bool
  estimated_time : PyValue

/-- display_enhanced_summary as a function of its data, with the
accesses performed in source order; a raised exception aborts the
rendering at that point. -/
def display_enhanced_summary (summary_data : PyValue) : Except PyExc SummaryView :=
  match summary_data with
  | .dict kvs =>
    match dictGet kvs "summary" with
    | Option.none => .error (.keyError "summary")
    | some sm =>
      match dictGet kvs "key_skills" with
      | Option.none => .error (.keyError "key_skills")
      | some ks =>
        match pyIterate ks with
        | .error e => .error e
        | .ok skills =>
          match pyLower ((dictGet kvs "difficulty").getD (.str "Medium")) with
          | .error e => .error e
          | .ok difficulty =>
            match dictGet kvs "estimated_time" with
            | Option.none => .error (.keyError "estimated_time")
            | some et =>
              .ok ⟨sm, skills, difficulty,
                   difficulty == "easy", difficulty == "medium", difficulty == "hard",
                   et⟩
  | other => .error (.typeError (other.typeName ++ " object is not subscriptable"))

/-! Section: Claims about the Response Normalizer -/

/-- C9: an input that is already a list is returned unchanged by
parse_quiz_response, with no diagnostic reported: the normalizer
restricted to list inputs is the identity. -/
theorem parse_quiz_response_list_identity (xs : List PyValue) :
    parse_quiz_response (.list xs) = .ok (.list xs, []) := rfl

/-- C8: on a dictionary input, parse_quiz_response returns the value
stored at key "questions"; when that key is absent it returns the
empty list and reports no diagnostic. -/
theorem parse_quiz_response_dict_questions (kvs : List (String × PyValue)) :
    (∀ v, dictGet kvs "questions" = some v →
      parse_quiz_response (.dict kvs) = .ok (v, [])) ∧
    (dictGet kvs "questions" = Option.none →
      parse_quiz_response (.dict kvs) = .ok (.list [], [])) := by
  constructor
  · intro v h
    simp [parse_quiz_response, parse_quiz_response_try, h]
  · intro h
    simp [parse_quiz_response, parse_quiz_response_try, h]

theorem parse_quiz_response_dict_questions_witness :
    parse_quiz_response (.dict [("questions", .list [.int 1])]) = .ok (.list [.int 1], []) ∧
    parse_quiz_response (.dict [("other", .int 0)]) = .ok (.list [], []) :=
  ⟨(parse_quiz_response_dict_questions [("questions", .list [.int 1])]).1 (.list [.int 1]) rfl,
   (parse_quiz_response_dict_questions [("other", .int 0)]).2 rfl⟩

/-- C1: evaluation of parse_quiz_response at the failing input.  For
the JSON text encoding the object with a "questions" key, the string
branch returns the parsed dictionary itself, while the dictionary
branch applied to the pre-parsed object returns the list stored under
"questions": the two results differ, so normalizing the text does not
yield the questions sequence that normalizing the pre-parsed object
yields (contradicting the docstring of the function itself, which promises a
list of question records). -/
theorem parse_quiz_response_string_dict_divergence :
    parse_quiz_response (.str "\x7b\"questions\": []\x7d") =
      .ok (.dict [("questions", .list [])], []) ∧
    parse_quiz_response (.dict [("questions", .list [])]) = .ok (.list [], []) ∧
    pyEq (.dict [("questions", .list [])]) (.list []) = false :=
  ⟨rfl, rfl, rfl⟩

/-- C3: if json.loads fails on the text, parse_quiz_response returns
the empty list together with exactly one reported diagnostic (the
JSONDecodeError message); and for every input of any shape the call
returns normally - no exception escapes the boundary of the function. -/
theorem parse_quiz_response_parse_failure_totality :
    (∀ s m, json_loads s = .error m →
      parse_quiz_response (.str s) =
        .ok (.list [], [.stError ("JSONDecodeError: " ++ m)])) ∧
    (∀ raw, ∃ r, parse_quiz_response raw = .ok r) := by
  constructor
  · intro s m h
    simp [parse_quiz_response, parse_quiz_response_try, h]
  · intro raw
    cases raw with
    | str s =>
      cases h : json_loads s with
      | ok v => exact ⟨(v, []), by simp [parse_quiz_response, parse_quiz_response_try, h]⟩
      | error m =>
        exact ⟨(.list [], [.stError ("JSONDecodeError: " ++ m)]),
          by simp [parse_quiz_response, parse_quiz_response_try, h]⟩
    | none => exact ⟨_, rfl⟩
    | bool b => exact ⟨_, rfl⟩
    | int n => exact ⟨_, rfl⟩
    | list xs => exact ⟨_, rfl⟩
    | dict kvs => exact ⟨_, rfl⟩

theorem parse_quiz_response_parse_failure_totality_witness :
    parse_quiz_response (.str "not json") =
      .ok (.list [], [.stError ("JSONDecodeError: " ++ "Expecting value")]) :=
  parse_quiz_response_parse_failure_totality.1 "not json" "Expecting value" rfl

/-! Section: Claims about the Grading Engine -/

/-- C4: grading compares the selection of the user by value against
options[correct_answer] - for a single question whose correct_answer
is an in-range index, the score is 1 exactly when the selected value
equals the value of the correct option under Python equality, so with
duplicate option texts any selection equal to the correct text counts;
and on the question 2+2? with options 3/4/5/6, correct_answer 1 and
answer "4" the score is 1 out of 1. -/
theorem grade_matches_selected_text_by_value :
    (∀ (kvs : List (String × PyValue)) (opts : List PyValue) (ci : Nat) (ans : PyValue)
        (hopts : dictGet kvs "options" = some (.list opts))
        (hci : dictGet kvs "correct_answer" = some (.int ci))
        (hlt : ci < opts.length),
        grade [.dict kvs] [(0, ans)] =
          .ok ⟨if pyEq ans (opts.get ⟨ci, hlt⟩) then 1 else 0, 1⟩)
    ∧ grade [.dict [("question", .str "2+2?"),
                    ("options", .list [.str "3", .str "4", .str "5", .str "6"]),
                    ("correct_answer", .int 1)]]
        [(0, .str "4")] = .ok ⟨1, 1⟩ := by
  constructor
  · intro kvs opts ci ans hopts hci hlt
    have hb : 0 ≤ (ci : Int) ∧ (ci : Int) < (opts.length : Int) := by omega
    have hneg : ¬ ((ci : Int) < 0) := by omega
    simp [grade, gradeLoop, gradeQuestion, answersGet, pyGetItem, hopts, hci,
          pyListIndex, List.find?, hb, hneg, Int.toNat_natCast]
  · rfl

theorem grade_matches_selected_text_by_value_witness :
    grade [.dict [("options", .list [.str "yes", .str "yes"]), ("correct_answer", .int 1)]]
        [(0, .str "yes")] = .ok ⟨1, 1⟩ := by
  have h := grade_matches_selected_text_by_value.1
      [("options", .list [.str "yes", .str "yes"]), ("correct_answer", .int 1)]
      [.str "yes", .str "yes"] 1 (.str "yes") rfl rfl (by decide)
  simpa [pyEq] using h

/-- C5: a question with no recorded answer is counted as incorrect,
not as an error - the loop body returns ok false when
selected_answers has no entry at the index of the question and the correct
option is a string; and grading the 2+2? question with an empty
answer mapping completes normally with score 0 out of 1. -/
theorem grade_unanswered_counts_incorrect :
    (∀ (answers : List (Nat × PyValue)) (idx : Nat) (kvs : List (String × PyValue))
        (opts : List PyValue) (ci : Nat) (s : String)
        (hci : dictGet kvs "correct_answer" = some (.int ci))
        (hopts : dictGet kvs "options" = some (.list opts))
        (hlt : ci < opts.length)
        (hs : opts.get ⟨ci, hlt⟩ = .str s)
        (hnone : (answers.find? fun p => p.1 == idx) = Option.none),
        gradeQuestion answers idx (.dict kvs) = .ok false)
    ∧ grade [.dict [("question", .str "2+2?"),
                    ("options", .list [.str "3", .str "4", .str "5", .str "6"]),
                    ("correct_answer", .int 1)]] [] = .ok ⟨0, 1⟩ := by
  constructor
  · intro answers idx kvs opts ci s hci hopts hlt hs hnone
    have hb : 0 ≤ (ci : Int) ∧ (ci : Int) < (opts.length : Int) := by omega
    have hneg : ¬ ((ci : Int) < 0) := by omega
    have hs2 : opts[ci] = PyValue.str s := by simpa using hs
    simp [gradeQuestion, answersGet, pyGetItem, hci, hopts, pyListIndex, hb, hneg,
          Int.toNat_natCast, hnone, pyEq, hs2]
  · rfl

theorem grade_unanswered_counts_incorrect_witness :
    gradeQuestion [] 0 (.dict [("question", .str "2+2?"),
      ("options", .list [.str "3", .str "4", .str "5", .str "6"]),
      ("correct_answer", .int 1)]) = .ok false :=
  grade_unanswered_counts_incorrect.1 [] 0
    [("question", .str "2+2?"),
     ("options", .list [.str "3", .str "4", .str "5", .str "6"]),
     ("correct_answer", .int 1)]
    [.str "3", .str "4", .str "5", .str "6"] 1 "4" rfl rfl (by decide) rfl rfl

/-- Each completed run of the evaluation loop adds at most one per
question to the accumulator. -/
theorem gradeLoop_le (answers : List (Nat × PyValue)) :
    ∀ (qs : List PyValue) (idx acc c : Nat),
      gradeLoop answers idx qs acc = .ok c → c ≤ acc + qs.length := by
  intro qs
  induction qs with
  | nil =>
    intro idx acc c h
    simp [gradeLoop] at h
    omega
  | cons q rest ih =>
    intro idx acc c h
    rw [gradeLoop] at h
    cases hq : gradeQuestion answers idx q with
    | error e => rw [hq] at h; cases h
    | ok b =>
      rw [hq] at h
      have := ih (idx + 1) (acc + if b then 1 else 0) c h
      have hle : (if b then 1 else 0) ≤ 1 := by cases b <;> simp
      simp only [List.length_cons]
      omega

/-- C10: whenever the grading loop completes, the reported score
satisfies correct_count ≤ total and total = len(quiz_data): each
question is examined once and contributes at most one. -/
theorem grade_score_bounds (qs : List PyValue) (answers : List (Nat × PyValue)) (s : Score)
    (h : grade qs answers = .ok s) :
    s.correct_count ≤ s.total ∧ s.total = qs.length := by
  unfold grade at h
  cases hl : gradeLoop answers 0 qs 0 with
  | error e => rw [hl] at h; cases h
  | ok c =>
    rw [hl] at h
    have hs : s = ⟨c, qs.length⟩ := by
      cases h
      rfl
    subst hs
    exact ⟨by simpa using gradeLoop_le answers qs 0 0 c hl, rfl⟩

theorem grade_score_bounds_witness :
    (⟨1, 1⟩ : Score).correct_count ≤ (⟨1, 1⟩ : Score).total ∧
    (⟨1, 1⟩ : Score).total =
      [PyValue.dict [("question", .str "2+2?"),
        ("options", .list [.str "3", .str "4", .str "5", .str "6"]),
        ("correct_answer", .int 1)]].length :=
  grade_score_bounds
    [.dict [("question", .str "2+2?"),
            ("options", .list [.str "3", .str "4", .str "5", .str "6"]),
            ("correct_answer", .int 1)]]
    [(0, .str "4")] ⟨1, 1⟩ rfl

/-- C2: evaluation of the grading code at the failing input.  No
validation pass exists in the source: a record whose correct_answer
is 4 with four options reaches the grading loop unfiltered, and the
lookup options[correct_answer] at line 44 raises IndexError instead
of the record having been rejected beforehand. -/
theorem grade_invalid_index_reaches_grading :
    grade [.dict [("question", .str "q"),
                  ("options", .list [.str "a", .str "b", .str "c", .str "d"]),
                  ("correct_answer", .int 4)]] [] = .error .indexError := rfl

/-! Section: Claims about the Document Summarizer rendering -/

/-- C6 counterexample: a summary record missing key_skills does not
yield an empty skills list - rendering aborts with a KeyError on
key_skills (line 181 subscripts the key directly), so no SummaryView
is produced at all. -/
theorem display_enhanced_summary_missing_key_skills_raises :
    display_enhanced_summary (.dict [("summary", .str "s"), ("estimated_time", .int 30)]) =
      .error (.keyError "key_skills") ∧
    (match display_enhanced_summary
        (.dict [("summary", .str "s"), ("estimated_time", .int 30)]) with
      | .ok _ => true
      | .error _ => false) = false := ⟨rfl, rfl⟩

/-- C6 amended: a summary record missing key_skills surfaces a
key-missing failure exactly like one missing summary or
estimated_time - none of the three is defaulted, and the failure is
the KeyError of the first missing key in source order. -/
theorem display_enhanced_summary_missing_keys_raise :
    (∀ (kvs : List (String × PyValue)), dictGet kvs "summary" = Option.none →
        display_enhanced_summary (.dict kvs) = .error (.keyError "summary"))
    ∧ (∀ (kvs : List (String × PyValue)) (sm : PyValue),
        dictGet kvs "summary" = some sm →
        dictGet kvs "key_skills" = Option.none →
        display_enhanced_summary (.dict kvs) = .error (.keyError "key_skills"))
    ∧ (∀ (kvs : List (String × PyValue)) (sm : PyValue) (sk : List PyValue) (ds : String),
        dictGet kvs "summary" = some sm →
        dictGet kvs "key_skills" = some (.list sk) →
        (dictGet kvs "difficulty").getD (.str "Medium") = .str ds →
        dictGet kvs "estimated_time" = Option.none →
        display_enhanced_summary (.dict kvs) = .error (.keyError "estimated_time")) := by
  refine ⟨?_, ?_, ?_⟩
  · intro kvs h
    simp [display_enhanced_summary, h]
  · intro kvs sm h1 h2
    simp [display_enhanced_summary, h1, h2]
  · intro kvs sm sk ds h1 h2 h3 h4
    simp [display_enhanced_summary, h1, h2, pyIterate, h3, pyLower, h4]

theorem display_enhanced_summary_missing_keys_raise_witness :
    display_enhanced_summary (.dict []) = .error (.keyError "summary") ∧
    display_enhanced_summary (.dict [("summary", .str "s"), ("key_skills", .list []),
        ("difficulty", .str "Easy")]) = .error (.keyError "estimated_time") :=
  ⟨display_enhanced_summary_missing_keys_raise.1 [] rfl,
   display_enhanced_summary_missing_keys_raise.2.2
     [("summary", .str "s"), ("key_skills", .list []), ("difficulty", .str "Easy")]
     (.str "s") [] "Easy" rfl rfl rfl rfl⟩

/-- C7: with difficulty absent the rendered record uses the default
value "Medium" (lowercased for the comparisons, so only the Medium
level is highlighted), and a present difficulty string is compared
case-insensitively: each highlight tests the lowercased value. -/
theorem display_enhanced_summary_difficulty_medium_default :
    (∀ (kvs : List (String × PyValue)) (sm : PyValue) (sk : List PyValue) (et : PyValue),
        dictGet kvs "summary" = some sm →
        dictGet kvs "key_skills" = some (.list sk) →
        dictGet kvs "difficulty" = Option.none →
        dictGet kvs "estimated_time" = some et →
        display_enhanced_summary (.dict kvs) =
          .ok ⟨sm, sk, pyStrLower "Medium", false, true, false, et⟩)
    ∧ (∀ (kvs : List (String × PyValue)) (sm : PyValue) (sk : List PyValue)
        (et : PyValue) (s : String),
        dictGet kvs "summary" = some sm →
        dictGet kvs "key_skills" = some (.list sk) →
        dictGet kvs "difficulty" = some (.str s) →
        dictGet kvs "estimated_time" = some et →
        display_enhanced_summary (.dict kvs) =
          .ok ⟨sm, sk, pyStrLower s, pyStrLower s == "easy", pyStrLower s == "medium",
               pyStrLower s == "hard", et⟩) := by
  constructor
  · intro kvs sm sk et h1 h2 h3 h4
    simp [display_enhanced_summary, h1, h2, pyIterate, h3, pyLower, h4]
    refine ⟨by decide, by decide, by decide⟩
  · intro kvs sm sk et s h1 h2 h3 h4
    simp [display_enhanced_summary, h1, h2, pyIterate, h3, pyLower, h4]

theorem display_enhanced_summary_difficulty_medium_default_witness :
    display_enhanced_summary (.dict [("summary", .str "s"), ("key_skills", .list []),
        ("estimated_time", .int 30)]) =
      .ok ⟨.str "s", [], pyStrLower "Medium", false, true, false, .int 30⟩ ∧
    display_enhanced_summary (.dict [("summary", .str "s"), ("key_skills", .list []),
        ("difficulty", .str "HARD"), ("estimated_time", .int 30)]) =
      .ok ⟨.str "s", [], pyStrLower "HARD", pyStrLower "HARD" == "easy",
           pyStrLower "HARD" == "medium", pyStrLower "HARD" == "hard", .int 30⟩ :=
  ⟨display_enhanced_summary_difficulty_medium_default.1
     [("summary", .str "s"), ("key_skills", .list []), ("estimated_time", .int 30)]
     (.str "s") [] (.int 30) rfl rfl rfl rfl,
   display_enhanced_summary_difficulty_medium_default.2
     [("summary", .str "s"), ("key_skills", .list []), ("difficulty", .str "HARD"),
      ("estimated_time", .int 30)]
     (.str "s") [] (.int 30) "HARD" rfl rfl rfl rfl⟩

end StudyRAG
